import Mathlib

/-!
Verification of the Philippine payroll calculator (`streamlit_app.py`).

Shallow embedding conventions:
* Monetary values are modeled as exact rationals (`ℚ`); the Python source
  computes with binary floats, whose rate literals (0.05, 0.15, ...) we read
  as the decimal fractions they denote.
* Python's `round(x, 2)` performs round-half-to-even at two decimal places;
  it is modeled by `round2` below.
* A spreadsheet cell is modeled by `Cell`: a numeric value, a non-numeric
  string (on which Python's `float(...)` raises), or an empty cell
  (pandas `NaN`, filled with 0 by `process_payroll`'s `fillna` step before
  any conversion runs).
-/

namespace Payroll

/-- A spreadsheet cell as seen by `process_payroll`: empty (`NaN`),
numeric, or a non-numeric string on which `float(...)` raises. -/
inductive Cell where
  | nan : Cell
  | num (q : ℚ) : Cell
  | str (s : String) : Cell
deriving DecidableEq, Repr

/-- Python `float(...)` on a cell: succeeds exactly on numeric cells. -/
def Cell.toQ : Cell → Option ℚ
  | Cell.num q => some q
  | _ => none

/-- Round-half-to-even to the nearest integer (Python's `round` on exact
halves rounds to the even neighbour). -/
def roundHalfEvenInt (q : ℚ) : ℤ :=
  if Int.fract q < 1 / 2 then ⌊q⌋
  else if 1 / 2 < Int.fract q then ⌊q⌋ + 1
  else if ⌊q⌋ % 2 = 0 then ⌊q⌋ else ⌊q⌋ + 1

/-- Python's `round(x, 2)`: round-half-to-even at two decimal places. -/
def round2 (q : ℚ) : ℚ :=
  (roundHalfEvenInt (q * 100) : ℚ) / 100

/-- Result record of `calculate_sss` (the `msc` key included). -/
structure SSSResult where
  employee_share : ℚ
  employer_share : ℚ
  total : ℚ
  msc : ℚ
deriving DecidableEq, Repr

/-- Result record of `calculate_philhealth` and `calculate_pagibig`. -/
structure ContribResult where
  employee_share : ℚ
  employer_share : ℚ
  total : ℚ
deriving DecidableEq, Repr

/-- `calculate_sss` (2025 rates: 15% total, 5% employee share); the
`except` branch returns all zeros. -/
def calculate_sss (basic_salary : Cell) : SSSResult :=
  match basic_salary.toQ with
  | some b =>
    let msc := min (max b 5000) 35000
    let employee_share := round2 (msc * (5 / 100))
    let employer_share := round2 (msc * (10 / 100))
    { employee_share := employee_share
      employer_share := employer_share
      total := employee_share + employer_share
      msc := msc }
  | none => { employee_share := 0, employer_share := 0, total := 0, msc := 0 }

/-- `calculate_philhealth` (5% total, split 50/50, min 500, max 2500). -/
def calculate_philhealth (salary : Cell) : ContribResult :=
  match salary.toQ with
  | some s =>
    let total := s * (5 / 100)
    let total := max (min total 2500) 500
    let share := round2 (total / 2)
    { employee_share := share, employer_share := share, total := share * 2 }
  | none => { employee_share := 0, employer_share := 0, total := 0 }

/-- `calculate_pagibig` (2% each side, compensation capped at 10,000,
each share capped at 200). -/
def calculate_pagibig (salary : Cell) : ContribResult :=
  match salary.toQ with
  | some s =>
    let capped_salary := min s 10000
    let employee_share := min (capped_salary * (2 / 100)) 200
    let employer_share := min (capped_salary * (2 / 100)) 200
    { employee_share := employee_share
      employer_share := employer_share
      total := employee_share + employer_share }
  | none => { employee_share := 0, employer_share := 0, total := 0 }

/-- `calculate_bir_tax`: 2023 BIR progressive withholding tax table; the
`except` branch returns 0. -/
def calculate_bir_tax (annual_taxable : Cell) : ℚ :=
  match annual_taxable.toQ with
  | some a =>
    if a ≤ 250000 then 0
    else if a ≤ 400000 then (a - 250000) * (15 / 100)
    else if a ≤ 800000 then 22500 + (a - 400000) * (20 / 100)
    else if a ≤ 2000000 then 102500 + (a - 800000) * (25 / 100)
    else if a ≤ 8000000 then 402500 + (a - 2000000) * (30 / 100)
    else 2202500 + (a - 8000000) * (35 / 100)
  | none => 0

/-! ### The per-record payroll computation (`process_payroll`'s loop body) -/

/-- The eleven numeric columns filled with 0 by
`df[numeric_cols] = df[numeric_cols].fillna(0)`. -/
def numeric_cols : List String :=
  ["basic_salary", "allowances", "days_worked",
   "regular_overtime_hours", "rest_day_overtime_hours",
   "holiday_overtime_hours", "special_holiday_overtime_hours",
   "late_minutes", "absent_days", "leave_with_pay_days", "loans"]

/-- One input row's numeric cells (the identification fields
`employee_id`/`full_name` play no part in any computation and are
omitted; the `dependents` and `tax_status` fields are never read by
`process_payroll` at all). -/
structure Row where
  basic_salary : Cell
  allowances : Cell
  days_worked : Cell
  regular_overtime_hours : Cell
  rest_day_overtime_hours : Cell
  holiday_overtime_hours : Cell
  special_holiday_overtime_hours : Cell
  late_minutes : Cell
  absent_days : Cell
  leave_with_pay_days : Cell
  loans : Cell
deriving DecidableEq, Repr

/-- The computed columns appended to a row by `process_payroll`
(each `round(..., 2)` in the source is `round2` here; the contribution
share columns are emitted unrounded, exactly as in the source). -/
structure PayrollResult where
  regular_overtime_pay : ℚ
  rest_day_overtime_pay : ℚ
  holiday_overtime_pay : ℚ
  special_holiday_overtime_pay : ℚ
  total_overtime_pay : ℚ
  late_deduction : ℚ
  absent_deduction : ℚ
  gross_salary : ℚ
  sss_employee : ℚ
  sss_employer : ℚ
  philhealth_employee : ℚ
  philhealth_employer : ℚ
  pagibig_employee : ℚ
  pagibig_employer : ℚ
  taxable_income : ℚ
  withholding_tax : ℚ
  total_deductions : ℚ
  loans : ℚ
  net_pay : ℚ
  employer_cost : ℚ
  thirteenth_month : ℚ
deriving DecidableEq

/-- The arithmetic body of `process_payroll`'s loop, once all eleven
`float(...)` conversions have succeeded.  `days_worked` is bound and
capped at 22 in the source but never used afterwards. -/
def computeRecord (basic allowances days_worked regular_overtime_hours
    rest_day_overtime_hours holiday_overtime_hours
    special_holiday_overtime_hours late_minutes absent_days
    leave_with_pay_days loans : ℚ) : PayrollResult :=
  let _capped_days := min days_worked (22 : ℚ)
  let _leave := leave_with_pay_days
  let working_days_per_month : ℚ := 313 / 12
  let daily_rate := basic / working_days_per_month
  let adjusted_basic := basic
  let absent_deduction := daily_rate * absent_days
  let hourly_rate := daily_rate / 8
  let regular_overtime_pay := hourly_rate * (125 / 100) * regular_overtime_hours
  let rest_day_overtime_pay :=
    hourly_rate * (130 / 100) * (130 / 100) * rest_day_overtime_hours
  let holiday_overtime_pay :=
    hourly_rate * 2 * (130 / 100) * holiday_overtime_hours
  let special_holiday_overtime_pay :=
    hourly_rate * (130 / 100) * (130 / 100) * special_holiday_overtime_hours
  let total_overtime_pay := regular_overtime_pay + rest_day_overtime_pay +
    holiday_overtime_pay + special_holiday_overtime_pay
  let late_deduction := hourly_rate / 60 * late_minutes
  let gross := adjusted_basic + allowances + total_overtime_pay -
    late_deduction - absent_deduction
  let sss := calculate_sss (Cell.num basic)
  let philhealth := calculate_philhealth (Cell.num basic)
  let pagibig := calculate_pagibig (Cell.num basic)
  let nontaxable := sss.employee_share + philhealth.employee_share +
    pagibig.employee_share
  let taxable := max (gross - nontaxable) 0
  let annual_taxable := taxable * 12
  let annual_net_taxable := max (annual_taxable - 90000) 0
  let annual_tax := calculate_bir_tax (Cell.num annual_net_taxable)
  let monthly_tax := annual_tax / 12
  let total_deductions := nontaxable + monthly_tax + loans
  let net_pay := gross - total_deductions
  let employer_cost := gross + sss.employer_share + philhealth.employer_share +
    pagibig.employer_share
  let thirteenth_month := basic / 12
  { regular_overtime_pay := round2 regular_overtime_pay
    rest_day_overtime_pay := round2 rest_day_overtime_pay
    holiday_overtime_pay := round2 holiday_overtime_pay
    special_holiday_overtime_pay := round2 special_holiday_overtime_pay
    total_overtime_pay := round2 total_overtime_pay
    late_deduction := round2 late_deduction
    absent_deduction := round2 absent_deduction
    gross_salary := round2 gross
    sss_employee := sss.employee_share
    sss_employer := sss.employer_share
    philhealth_employee := philhealth.employee_share
    philhealth_employer := philhealth.employer_share
    pagibig_employee := pagibig.employee_share
    pagibig_employer := pagibig.employer_share
    taxable_income := round2 taxable
    withholding_tax := round2 monthly_tax
    total_deductions := round2 total_deductions
    loans := round2 loans
    net_pay := round2 net_pay
    employer_cost := round2 employer_cost
    thirteenth_month := round2 thirteenth_month }

/-- One iteration of `process_payroll`'s `for` loop: all eleven
`float(...)` conversions must succeed, otherwise the row's `try` block
raises and the `except` branch reports the row as failed (`none`).  A
successful row appends the computed columns to the echoed input row
(`{**row.to_dict(), ...}`). -/
def processRow (row : Row) : Option (Row × PayrollResult) :=
  row.basic_salary.toQ.bind fun basic =>
  row.allowances.toQ.bind fun allowances =>
  row.days_worked.toQ.bind fun days_worked =>
  row.regular_overtime_hours.toQ.bind fun regular_overtime_hours =>
  row.rest_day_overtime_hours.toQ.bind fun rest_day_overtime_hours =>
  row.holiday_overtime_hours.toQ.bind fun holiday_overtime_hours =>
  row.special_holiday_overtime_hours.toQ.bind fun special_holiday_overtime_hours =>
  row.late_minutes.toQ.bind fun late_minutes =>
  row.absent_days.toQ.bind fun absent_days =>
  row.leave_with_pay_days.toQ.bind fun leave_with_pay_days =>
  row.loans.toQ.bind fun loans =>
  some (row, computeRecord basic allowances days_worked
    regular_overtime_hours rest_day_overtime_hours holiday_overtime_hours
    special_holiday_overtime_hours late_minutes absent_days
    leave_with_pay_days loans)

/-- `fillna(0)` on one cell: an empty (`NaN`) cell becomes numeric 0. -/
def fillnaCell : Cell → Cell
  | Cell.nan => Cell.num 0
  | c => c

/-- `df[numeric_cols].fillna(0)` applied to one row. -/
def fillnaRow (r : Row) : Row where
  basic_salary := fillnaCell r.basic_salary
  allowances := fillnaCell r.allowances
  days_worked := fillnaCell r.days_worked
  regular_overtime_hours := fillnaCell r.regular_overtime_hours
  rest_day_overtime_hours := fillnaCell r.rest_day_overtime_hours
  holiday_overtime_hours := fillnaCell r.holiday_overtime_hours
  special_holiday_overtime_hours := fillnaCell r.special_holiday_overtime_hours
  late_minutes := fillnaCell r.late_minutes
  absent_days := fillnaCell r.absent_days
  leave_with_pay_days := fillnaCell r.leave_with_pay_days
  loans := fillnaCell r.loans

/-- An uploaded dataframe: the set of column names actually present in
the sheet, and its rows (cells of absent columns are `Cell.nan`, though
they are never reached: pandas raises first). -/
structure DF where
  cols : List String
  rows : List Row

/-- `process_payroll` on a whole dataframe.  The selection
`df[numeric_cols]` raises a pandas `KeyError` when any of the eleven
numeric columns is absent from the sheet, aborting the whole batch
(`Except.error`); otherwise every `NaN` in those columns becomes 0 and
each row is processed independently, failed rows being reported
(counted) rather than aborting the batch. -/
def process_payroll (df : DF) : Except String (List (Row × PayrollResult) × Nat) :=
  if ∀ c ∈ numeric_cols, c ∈ df.cols then
    let rows := df.rows.map fillnaRow
    Except.ok (rows.filterMap processRow,
      rows.countP fun r => (processRow r).isNone)
  else
    Except.error "KeyError: columns not in index"

/-! ### Concrete inputs used by the claims -/

/-- The concrete scenario record: `basic_salary = 25000`,
`allowances = 5000`, every other numeric field 0 (the `dependents = 1`
of the scenario has no cell here because `process_payroll` never reads
a `dependents` field). -/
def scenarioRow : Row :=
  { basic_salary := Cell.num 25000, allowances := Cell.num 5000
    days_worked := Cell.num 22, regular_overtime_hours := Cell.num 0
    rest_day_overtime_hours := Cell.num 0, holiday_overtime_hours := Cell.num 0
    special_holiday_overtime_hours := Cell.num 0, late_minutes := Cell.num 0
    absent_days := Cell.num 0, leave_with_pay_days := Cell.num 0
    loans := Cell.num 0 }

/-- A malformed record: `basic_salary = "N/A"` (a non-numeric string). -/
def badRow : Row := { scenarioRow with basic_salary := Cell.str "N/A" }

/-- A sheet carrying every recognized column. -/
def witnessCols : List String := "employee_id" :: "full_name" :: numeric_cols

/-- A sheet from which the optional `loans` column is entirely absent. -/
def noLoansCols : List String :=
  ["employee_id", "full_name", "basic_salary", "allowances", "days_worked",
   "regular_overtime_hours", "rest_day_overtime_hours",
   "holiday_overtime_hours", "special_holiday_overtime_hours",
   "late_minutes", "absent_days", "leave_with_pay_days"]

/-- What the code actually computes for the scenario record. -/
def scenarioResult : PayrollResult :=
  { regular_overtime_pay := 0, rest_day_overtime_pay := 0
    holiday_overtime_pay := 0, special_holiday_overtime_pay := 0
    total_overtime_pay := 0, late_deduction := 0, absent_deduction := 0
    gross_salary := 30000, sss_employee := 1250, sss_employer := 2500
    philhealth_employee := 625, philhealth_employer := 625
    pagibig_employee := 200, pagibig_employer := 200
    taxable_income := 27925, withholding_tax := 0, total_deductions := 2075
    loans := 0, net_pay := 27925, employer_cost := 33325
    thirteenth_month := 208333 / 100 }

/-- A record agreeing with `scenarioRow` on basic salary but with other
allowances and late minutes. -/
def scenarioRowB : Row :=
  { scenarioRow with allowances := Cell.num 8000, late_minutes := Cell.num 30 }

/-- The scenario record with `days_worked` 10 instead of 22. -/
def scenarioRowC : Row := { scenarioRow with days_worked := Cell.num 10 }

/-- Replacing an empty optional numeric cell by an explicit numeric 0
(the claim's "as if that field were 0"); the mandatory `basic_salary`
cell is left untouched. -/
def zeroEmptyOptional (r : Row) : Row where
  basic_salary := r.basic_salary
  allowances := fillnaCell r.allowances
  days_worked := fillnaCell r.days_worked
  regular_overtime_hours := fillnaCell r.regular_overtime_hours
  rest_day_overtime_hours := fillnaCell r.rest_day_overtime_hours
  holiday_overtime_hours := fillnaCell r.holiday_overtime_hours
  special_holiday_overtime_hours := fillnaCell r.special_holiday_overtime_hours
  late_minutes := fillnaCell r.late_minutes
  absent_days := fillnaCell r.absent_days
  leave_with_pay_days := fillnaCell r.leave_with_pay_days
  loans := fillnaCell r.loans

/-- A dataframe whose sheet lacks the optional `loans` column entirely. -/
def noLoansDF : DF := { cols := noLoansCols, rows := [scenarioRow] }

/-- The scenario record with empty (`NaN`) `allowances` and `loans`. -/
def nanRow : Row :=
  { scenarioRow with allowances := Cell.nan, loans := Cell.nan }

/-! ### Basic facts about `roundHalfEvenInt` and `round2` -/

/-- `roundHalfEvenInt` never goes below the floor. -/
theorem floor_le_roundHalfEvenInt (q : ℚ) : ⌊q⌋ ≤ roundHalfEvenInt q := by
  unfold roundHalfEvenInt
  split_ifs <;> omega

/-- `roundHalfEvenInt` never exceeds the floor plus one. -/
theorem roundHalfEvenInt_le_floor_add_one (q : ℚ) : roundHalfEvenInt q ≤ ⌊q⌋ + 1 := by
  unfold roundHalfEvenInt
  split_ifs <;> omega

/-- Round-half-to-even is monotone. -/
theorem roundHalfEvenInt_mono {x y : ℚ} (h : x ≤ y) :
    roundHalfEvenInt x ≤ roundHalfEvenInt y := by
  rcases lt_or_le ⌊x⌋ ⌊y⌋ with hf | hf
  · calc roundHalfEvenInt x ≤ ⌊x⌋ + 1 := roundHalfEvenInt_le_floor_add_one x
      _ ≤ ⌊y⌋ := by omega
      _ ≤ roundHalfEvenInt y := floor_le_roundHalfEvenInt y
  · have hf' : ⌊x⌋ = ⌊y⌋ := le_antisymm (Int.floor_le_floor h) hf
    have hfr : Int.fract x ≤ Int.fract y := by
      have hx : Int.fract x = x - ⌊x⌋ := rfl
      have hy : Int.fract y = y - ⌊y⌋ := rfl
      have hc : ((⌊x⌋ : ℚ)) = ((⌊y⌋ : ℚ)) := by exact_mod_cast hf'
      rw [hx, hy, hc]
      linarith
    unfold roundHalfEvenInt
    rw [hf']
    split_ifs <;> first | omega | (exfalso; linarith)

/-- `round2` is monotone. -/
theorem round2_mono {x y : ℚ} (h : x ≤ y) : round2 x ≤ round2 y := by
  unfold round2
  have h100 : x * 100 ≤ y * 100 := by linarith
  have := roundHalfEvenInt_mono h100
  have hc : ((roundHalfEvenInt (x * 100) : ℚ)) ≤ ((roundHalfEvenInt (y * 100) : ℚ)) := by
    exact_mod_cast this
  linarith

/-- `round2` of a non-negative number is non-negative. -/
theorem round2_nonneg {q : ℚ} (h : 0 ≤ q) : 0 ≤ round2 q := by
  unfold round2
  have h100 : (0 : ℚ) ≤ q * 100 := by linarith
  have hfl : (0 : ℤ) ≤ ⌊q * 100⌋ := Int.floor_nonneg.mpr h100
  have hle : (0 : ℤ) ≤ roundHalfEvenInt (q * 100) :=
    le_trans hfl (floor_le_roundHalfEvenInt _)
  have : (0 : ℚ) ≤ (roundHalfEvenInt (q * 100) : ℚ) := by exact_mod_cast hle
  linarith

/-- Evaluation rule for `round2` when the scaled value lies in the lower
half-open interval of its floor: `round2 q = n / 100` whenever
`n ≤ 100 q < n + 1/2`. -/
theorem round2_eq_of_lt_half {q : ℚ} {n : ℤ} (h1 : (n : ℚ) ≤ q * 100)
    (h2 : q * 100 < (n : ℚ) + 1 / 2) : round2 q = (n : ℚ) / 100 := by
  have hfl : ⌊q * 100⌋ = n := Int.floor_eq_iff.mpr ⟨h1, by linarith⟩
  have hfr : Int.fract (q * 100) < 1 / 2 := by
    have : Int.fract (q * 100) = q * 100 - ⌊q * 100⌋ := rfl
    rw [this, hfl]
    linarith
  unfold round2 roundHalfEvenInt
  rw [if_pos hfr, hfl]

/-- `round2` fixes integers. -/
theorem round2_intCast (n : ℤ) : round2 (n : ℚ) = (n : ℚ) := by
  have h1 : ((n * 100 : ℤ) : ℚ) ≤ (n : ℚ) * 100 := by push_cast; linarith
  have h2 : (n : ℚ) * 100 < ((n * 100 : ℤ) : ℚ) + 1 / 2 := by push_cast; linarith
  rw [round2_eq_of_lt_half h1 h2]
  push_cast
  ring

/-! ### Unfolding lemmas -/

/-- `calculate_sss` on a numeric input, written out. -/
theorem calculate_sss_num (x : ℚ) : calculate_sss (Cell.num x) =
    { employee_share := round2 (min (max x 5000) 35000 * (5 / 100))
      employer_share := round2 (min (max x 5000) 35000 * (10 / 100))
      total := round2 (min (max x 5000) 35000 * (5 / 100)) +
        round2 (min (max x 5000) 35000 * (10 / 100))
      msc := min (max x 5000) 35000 } := rfl

/-- `calculate_philhealth` on a numeric input, written out. -/
theorem calculate_philhealth_num (x : ℚ) : calculate_philhealth (Cell.num x) =
    { employee_share := round2 (max (min (x * (5 / 100)) 2500) 500 / 2)
      employer_share := round2 (max (min (x * (5 / 100)) 2500) 500 / 2)
      total := round2 (max (min (x * (5 / 100)) 2500) 500 / 2) * 2 } := rfl

/-- `calculate_pagibig` on a numeric input, written out. -/
theorem calculate_pagibig_num (x : ℚ) : calculate_pagibig (Cell.num x) =
    { employee_share := min (min x 10000 * (2 / 100)) 200
      employer_share := min (min x 10000 * (2 / 100)) 200
      total := min (min x 10000 * (2 / 100)) 200 +
        min (min x 10000 * (2 / 100)) 200 } := rfl

/-- `calculate_bir_tax` on a numeric input, written out. -/
theorem calculate_bir_tax_num (x : ℚ) : calculate_bir_tax (Cell.num x) =
    (if x ≤ 250000 then 0
     else if x ≤ 400000 then (x - 250000) * (15 / 100)
     else if x ≤ 800000 then 22500 + (x - 400000) * (20 / 100)
     else if x ≤ 2000000 then 102500 + (x - 800000) * (25 / 100)
     else if x ≤ 8000000 then 402500 + (x - 2000000) * (30 / 100)
     else 2202500 + (x - 8000000) * (35 / 100)) := rfl

/-! ### Claim C1 -/

/-- Claim C1: for every compensation `x ≥ 0`, each contribution
calculator (SSS, PhilHealth, Pag-IBIG) returns a result whose `total`
equals `employee_share + employer_share` within 0.01 currency units, and
whose `employee_share`, `employer_share` and `total` are all
non-negative. -/
theorem contribution_share_sum_and_nonneg (x : ℚ) (hx : 0 ≤ x) :
    (|(calculate_sss (Cell.num x)).total -
        ((calculate_sss (Cell.num x)).employee_share +
          (calculate_sss (Cell.num x)).employer_share)| ≤ 1 / 100 ∧
      0 ≤ (calculate_sss (Cell.num x)).employee_share ∧
      0 ≤ (calculate_sss (Cell.num x)).employer_share ∧
      0 ≤ (calculate_sss (Cell.num x)).total) ∧
    (|(calculate_philhealth (Cell.num x)).total -
        ((calculate_philhealth (Cell.num x)).employee_share +
          (calculate_philhealth (Cell.num x)).employer_share)| ≤ 1 / 100 ∧
      0 ≤ (calculate_philhealth (Cell.num x)).employee_share ∧
      0 ≤ (calculate_philhealth (Cell.num x)).employer_share ∧
      0 ≤ (calculate_philhealth (Cell.num x)).total) ∧
    (|(calculate_pagibig (Cell.num x)).total -
        ((calculate_pagibig (Cell.num x)).employee_share +
          (calculate_pagibig (Cell.num x)).employer_share)| ≤ 1 / 100 ∧
      0 ≤ (calculate_pagibig (Cell.num x)).employee_share ∧
      0 ≤ (calculate_pagibig (Cell.num x)).employer_share ∧
      0 ≤ (calculate_pagibig (Cell.num x)).total) := by
  rw [calculate_sss_num, calculate_philhealth_num, calculate_pagibig_num]
  have hmsc : (0 : ℚ) ≤ min (max x 5000) 35000 :=
    le_min (le_trans (by norm_num) (le_max_right x 5000)) (by norm_num)
  have hsss_e : (0 : ℚ) ≤ round2 (min (max x 5000) 35000 * (5 / 100)) :=
    round2_nonneg (by positivity)
  have hsss_r : (0 : ℚ) ≤ round2 (min (max x 5000) 35000 * (10 / 100)) :=
    round2_nonneg (by positivity)
  have hph_base : (0 : ℚ) ≤ max (min (x * (5 / 100)) 2500) 500 :=
    le_trans (by norm_num) (le_max_right _ 500)
  have hph : (0 : ℚ) ≤ round2 (max (min (x * (5 / 100)) 2500) 500 / 2) :=
    round2_nonneg (by positivity)
  have hpg_base : (0 : ℚ) ≤ min x 10000 := le_min hx (by norm_num)
  have hpg : (0 : ℚ) ≤ min (min x 10000 * (2 / 100)) 200 :=
    le_min (by positivity) (by norm_num)
  refine ⟨⟨?_, hsss_e, hsss_r, by simp; linarith⟩,
    ⟨?_, hph, hph, by simp; linarith⟩, ⟨?_, hpg, hpg, by simp; linarith⟩⟩
  · simp
  · simp
    ring_nf
    simp
  · simp

/-- Witness for C1 at compensation 10000: applies the theorem. -/
theorem contribution_share_sum_and_nonneg_witness :
    0 ≤ (10000 : ℚ) ∧ 0 ≤ (calculate_sss (Cell.num 10000)).total ∧
      0 ≤ (calculate_pagibig (Cell.num 10000)).total :=
  ⟨by norm_num, (contribution_share_sum_and_nonneg 10000 (by norm_num)).1.2.2.2,
    (contribution_share_sum_and_nonneg 10000 (by norm_num)).2.2.2.2.2⟩

/-! ### Claim C5 -/

/-- Claim C5: each calculator's total contribution is monotonically
non-decreasing in compensation: `x1 < x2` implies the total for `x1` is
at most the total for `x2`. -/
theorem contribution_total_monotone (x1 x2 : ℚ) (h : x1 < x2) :
    (calculate_sss (Cell.num x1)).total ≤ (calculate_sss (Cell.num x2)).total ∧
    (calculate_philhealth (Cell.num x1)).total ≤
      (calculate_philhealth (Cell.num x2)).total ∧
    (calculate_pagibig (Cell.num x1)).total ≤
      (calculate_pagibig (Cell.num x2)).total := by
  rw [calculate_sss_num, calculate_sss_num, calculate_philhealth_num,
    calculate_philhealth_num, calculate_pagibig_num, calculate_pagibig_num]
  have hmsc : min (max x1 5000) 35000 ≤ min (max x2 5000) 35000 :=
    min_le_min (max_le_max h.le le_rfl) le_rfl
  have hph : max (min (x1 * (5 / 100)) 2500) 500 ≤
      max (min (x2 * (5 / 100)) 2500) 500 :=
    max_le_max (min_le_min (by linarith) le_rfl) le_rfl
  have hpg : min (min x1 10000 * (2 / 100)) 200 ≤
      min (min x2 10000 * (2 / 100)) 200 := by
    have : min x1 10000 ≤ min x2 10000 := min_le_min h.le le_rfl
    exact min_le_min (by linarith) le_rfl
  refine ⟨?_, ?_, ?_⟩
  · simp only
    have e1 := round2_mono (mul_le_mul_of_nonneg_right hmsc (by norm_num : (0:ℚ) ≤ 5 / 100))
    have e2 := round2_mono (mul_le_mul_of_nonneg_right hmsc (by norm_num : (0:ℚ) ≤ 10 / 100))
    linarith
  · simp only
    have := round2_mono
      (by linarith : max (min (x1 * (5 / 100)) 2500) 500 / 2 ≤
        max (min (x2 * (5 / 100)) 2500) 500 / 2)
    linarith
  · simp only
    linarith

/-- Witness for C5 at compensations 8000 < 20000: applies the theorem. -/
theorem contribution_total_monotone_witness :
    (8000 : ℚ) < 20000 ∧
    (calculate_sss (Cell.num 8000)).total ≤ (calculate_sss (Cell.num 20000)).total :=
  ⟨by norm_num, (contribution_total_monotone 8000 20000 (by norm_num)).1⟩

/-! ### Claim C2 -/

/-- Claim C2: the tax calculator is non-negative and monotonically
non-decreasing on non-negative annual taxable income, and at each
bracket boundary (250000, 400000, 800000, 2000000, 8000000) the value
it returns — computed by the lower bracket's formula, since the
comparisons are inclusive — coincides with the upper bracket's formula
evaluated at that same boundary. -/
theorem bir_tax_nonneg_monotone_continuous :
    (∀ x : ℚ, 0 ≤ x → 0 ≤ calculate_bir_tax (Cell.num x)) ∧
    (∀ x y : ℚ, 0 ≤ x → x ≤ y →
      calculate_bir_tax (Cell.num x) ≤ calculate_bir_tax (Cell.num y)) ∧
    (calculate_bir_tax (Cell.num 250000) = 0 ∧
      calculate_bir_tax (Cell.num 250000) = (250000 - 250000) * (15 / 100)) ∧
    (calculate_bir_tax (Cell.num 400000) = (400000 - 250000) * (15 / 100) ∧
      calculate_bir_tax (Cell.num 400000) = 22500 + (400000 - 400000) * (20 / 100)) ∧
    (calculate_bir_tax (Cell.num 800000) = 22500 + (800000 - 400000) * (20 / 100) ∧
      calculate_bir_tax (Cell.num 800000) = 102500 + (800000 - 800000) * (25 / 100)) ∧
    (calculate_bir_tax (Cell.num 2000000) = 102500 + (2000000 - 800000) * (25 / 100) ∧
      calculate_bir_tax (Cell.num 2000000) = 402500 + (2000000 - 2000000) * (30 / 100)) ∧
    (calculate_bir_tax (Cell.num 8000000) = 402500 + (8000000 - 2000000) * (30 / 100) ∧
      calculate_bir_tax (Cell.num 8000000) = 2202500 + (8000000 - 8000000) * (35 / 100)) := by
  refine ⟨?_, ?_, ?_, ?_, ?_, ?_, ?_⟩
  · intro x hx
    rw [calculate_bir_tax_num]
    split_ifs <;> linarith
  · intro x y hx hxy
    rw [calculate_bir_tax_num, calculate_bir_tax_num]
    split_ifs <;> linarith
  all_goals constructor <;> (rw [calculate_bir_tax_num]; norm_num)

/-- Witness for C2 at incomes 300000 ≤ 500000: applies the theorem. -/
theorem bir_tax_nonneg_monotone_continuous_witness :
    0 ≤ (300000 : ℚ) ∧ (300000 : ℚ) ≤ 500000 ∧
    0 ≤ calculate_bir_tax (Cell.num 300000) ∧
    calculate_bir_tax (Cell.num 300000) ≤ calculate_bir_tax (Cell.num 500000) :=
  ⟨by norm_num, by norm_num,
    bir_tax_nonneg_monotone_continuous.1 300000 (by norm_num),
    bir_tax_nonneg_monotone_continuous.2.1 300000 500000 (by norm_num) (by norm_num)⟩

/-! ### Claim C10 -/

/-- Claim C10: on every input whose numeric conversion fails
(non-numeric string or missing value), each contribution calculator
returns a result with all shares and total equal to 0, and the tax
calculator returns 0 — the `except` branches swallow the error. -/
theorem conversion_failure_returns_zero (c : Cell) (h : c.toQ = none) :
    calculate_sss c = { employee_share := 0, employer_share := 0, total := 0, msc := 0 } ∧
    calculate_philhealth c = { employee_share := 0, employer_share := 0, total := 0 } ∧
    calculate_pagibig c = { employee_share := 0, employer_share := 0, total := 0 } ∧
    calculate_bir_tax c = 0 := by
  unfold calculate_sss calculate_philhealth calculate_pagibig calculate_bir_tax
  rw [h]
  exact ⟨rfl, rfl, rfl, rfl⟩

/-- Witness for C10 at the non-numeric input `"N/A"`: applies the theorem. -/
theorem conversion_failure_returns_zero_witness :
    (Cell.str "N/A").toQ = none ∧
    calculate_sss (Cell.str "N/A") =
      { employee_share := 0, employer_share := 0, total := 0, msc := 0 } ∧
    calculate_bir_tax (Cell.str "N/A") = 0 :=
  ⟨rfl, (conversion_failure_returns_zero (Cell.str "N/A") rfl).1,
    (conversion_failure_returns_zero (Cell.str "N/A") rfl).2.2.2⟩

/-! ### Claim C4 -/

/-- Counterexample to Claim C4: at compensation 0 (which satisfies
`x ≤ 0`) the SSS calculator returns total 750 — the statutory MSC floor
of 5000 applies — and PhilHealth returns total 500, not the all-zero
results the claim asserts. -/
theorem nonpositive_compensation_counterexample :
    (0 : ℚ) ≤ 0 ∧
    (calculate_sss (Cell.num 0)).total = 750 ∧ (750 : ℚ) ≠ 0 ∧
    (calculate_philhealth (Cell.num 0)).total = 500 ∧ (500 : ℚ) ≠ 0 := by
  have e1 : round2 (250 : ℚ) = 250 := by exact_mod_cast round2_intCast 250
  have e2 : round2 (500 : ℚ) = 500 := by exact_mod_cast round2_intCast 500
  refine ⟨le_refl 0, ?_, by norm_num, ?_, by norm_num⟩
  · rw [calculate_sss_num]
    have hm : min (max (0 : ℚ) 5000) 35000 = 5000 := by norm_num [min_def, max_def]
    rw [hm]
    simp only
    rw [show (5000 : ℚ) * (5 / 100) = 250 by norm_num,
      show (5000 : ℚ) * (10 / 100) = 500 by norm_num, e1, e2]
    norm_num
  · rw [calculate_philhealth_num]
    have hm : max (min ((0 : ℚ) * (5 / 100)) 2500) 500 = 500 := by
      norm_num [min_def, max_def]
    rw [hm]
    simp only
    rw [show (500 : ℚ) / 2 = 250 by norm_num, e1]
    norm_num

/-- Claim C4 as amended: for compensation `x ≤ 0` no calculator errors,
but the statutory floors apply instead of zeroing out: SSS returns
shares 250/500 (total 750, MSC 5000), PhilHealth returns shares 250/250
(total 500), and Pag-IBIG returns `0.02·x` for each share (hence 0 only
at `x = 0`, and negative shares for negative compensation). -/
theorem nonpositive_compensation_shares (x : ℚ) (hx : x ≤ 0) :
    calculate_sss (Cell.num x) =
      { employee_share := 250, employer_share := 500, total := 750, msc := 5000 } ∧
    calculate_philhealth (Cell.num x) =
      { employee_share := 250, employer_share := 250, total := 500 } ∧
    calculate_pagibig (Cell.num x) =
      { employee_share := x * (2 / 100), employer_share := x * (2 / 100)
        total := x * (2 / 100) + x * (2 / 100) } := by
  have e1 : round2 (250 : ℚ) = 250 := by exact_mod_cast round2_intCast 250
  have e2 : round2 (500 : ℚ) = 500 := by exact_mod_cast round2_intCast 500
  refine ⟨?_, ?_, ?_⟩
  · rw [calculate_sss_num]
    have hm : min (max x 5000) 35000 = 5000 := by
      rw [max_eq_right (hx.trans (by norm_num))]
      norm_num [min_def]
    rw [hm]
    rw [show (5000 : ℚ) * (5 / 100) = 250 by norm_num,
      show (5000 : ℚ) * (10 / 100) = 500 by norm_num, e1, e2]
    norm_num
  · rw [calculate_philhealth_num]
    have hm : max (min (x * (5 / 100)) 2500) 500 = 500 := by
      rw [min_eq_left (by linarith : x * (5 / 100) ≤ 2500)]
      exact max_eq_right (by linarith)
    rw [hm]
    rw [show (500 : ℚ) / 2 = 250 by norm_num, e1]
    norm_num
  · rw [calculate_pagibig_num]
    have hm : min x 10000 = x := min_eq_left (by linarith)
    rw [hm, min_eq_left (by linarith : x * (2 / 100) ≤ 200)]

/-- Witness for the amended C4 at compensation −100: applies the theorem. -/
theorem nonpositive_compensation_shares_witness :
    (-100 : ℚ) ≤ 0 ∧
    (calculate_sss (Cell.num (-100))).total = 750 ∧
    calculate_pagibig (Cell.num (-100)) =
      { employee_share := (-100 : ℚ) * (2 / 100), employer_share := (-100 : ℚ) * (2 / 100)
        total := (-100 : ℚ) * (2 / 100) + (-100 : ℚ) * (2 / 100) } :=
  ⟨by norm_num,
    by rw [(nonpositive_compensation_shares (-100) (by norm_num)).1],
    (nonpositive_compensation_shares (-100) (by norm_num)).2.2⟩

/-! ### Claim C3 -/

/-- The three calculators at basic salary 25000. -/
theorem calculators_at_25000 :
    calculate_sss (Cell.num 25000) =
      { employee_share := 1250, employer_share := 2500, total := 3750, msc := 25000 } ∧
    calculate_philhealth (Cell.num 25000) =
      { employee_share := 625, employer_share := 625, total := 1250 } ∧
    calculate_pagibig (Cell.num 25000) =
      { employee_share := 200, employer_share := 200, total := 400 } := by
  have e1250 : round2 (1250 : ℚ) = 1250 := by exact_mod_cast round2_intCast 1250
  have e2500 : round2 (2500 : ℚ) = 2500 := by exact_mod_cast round2_intCast 2500
  have e625 : round2 (625 : ℚ) = 625 := by exact_mod_cast round2_intCast 625
  refine ⟨?_, ?_, ?_⟩
  · rw [calculate_sss_num]
    rw [show min (max (25000 : ℚ) 5000) 35000 = 25000 by norm_num [min_def, max_def]]
    rw [show (25000 : ℚ) * (5 / 100) = 1250 by norm_num,
      show (25000 : ℚ) * (10 / 100) = 2500 by norm_num, e1250, e2500]
    norm_num
  · rw [calculate_philhealth_num]
    rw [show max (min ((25000 : ℚ) * (5 / 100)) 2500) 500 = 1250 by
      norm_num [min_def, max_def]]
    rw [show (1250 : ℚ) / 2 = 625 by norm_num, e625]
    norm_num
  · rw [calculate_pagibig_num]
    rw [show min (25000 : ℚ) 10000 = 10000 by norm_num [min_def]]
    rw [show min ((10000 : ℚ) * (2 / 100)) 200 = 200 by norm_num [min_def]]
    norm_num

/-- The loop body evaluated on the scenario record. -/
theorem scenario_compute :
    computeRecord 25000 5000 22 0 0 0 0 0 0 0 0 = scenarioResult := by
  have e0 : round2 (0 : ℚ) = 0 := by exact_mod_cast round2_intCast 0
  have e30000 : round2 (30000 : ℚ) = 30000 := by exact_mod_cast round2_intCast 30000
  have e27925 : round2 (27925 : ℚ) = 27925 := by exact_mod_cast round2_intCast 27925
  have e2075 : round2 (2075 : ℚ) = 2075 := by exact_mod_cast round2_intCast 2075
  have e33325 : round2 (33325 : ℚ) = 33325 := by exact_mod_cast round2_intCast 33325
  have e13a : round2 ((25000 : ℚ) / 12) = 208333 / 100 := by
    rw [round2_eq_of_lt_half (n := 208333) (by norm_num) (by norm_num)]
    norm_num
  have e13b : round2 ((6250 : ℚ) / 3) = 208333 / 100 := by
    rw [round2_eq_of_lt_half (n := 208333) (by norm_num) (by norm_num)]
    norm_num
  simp only [computeRecord, calculators_at_25000.1, calculators_at_25000.2.1,
    calculators_at_25000.2.2]
  norm_num [max_def, min_def, calculate_bir_tax_num, scenarioResult,
    e0, e30000, e27925, e2075, e33325, e13a, e13b]

/-- Counterexample to Claim C3: on the scenario record the code's
employee contribution shares sum to 2075 (1250 SSS + 625 PhilHealth +
200 Pag-IBIG), not 1812.50, and the net pay is 27925, not 28187.50 —
the source applies its 2025 contribution rates, not the 4.5%/3%/capped-100
split the claim describes. -/
theorem concrete_scenario_counterexample :
    processRow scenarioRow = some (scenarioRow, scenarioResult) ∧
    scenarioResult.sss_employee + scenarioResult.philhealth_employee +
      scenarioResult.pagibig_employee = 2075 ∧ (2075 : ℚ) ≠ 1812.50 ∧
    scenarioResult.net_pay = 27925 ∧ (27925 : ℚ) ≠ 28187.50 := by
  refine ⟨?_, by norm_num [scenarioResult], by norm_num,
    by norm_num [scenarioResult], by norm_num⟩
  rw [show processRow scenarioRow =
    some (scenarioRow, computeRecord 25000 5000 22 0 0 0 0 0 0 0 0) from rfl]
  rw [scenario_compute]

/-- Claim C3 as amended: on the scenario record the code computes gross
pay 30000; employee shares 1250 (SSS) + 625 (PhilHealth) + 200
(Pag-IBIG) = 2075; monthly taxable income 27925; annual taxable income
335100; annual net taxable 245100 after only the 90000 standard
deduction (the code applies no dependent deduction and never reads the
`dependents` field); annual withholding tax 0; and net pay 27925. -/
theorem concrete_scenario_code_values :
    processRow scenarioRow = some (scenarioRow, scenarioResult) ∧
    scenarioResult.gross_salary = 30000 ∧
    scenarioResult.sss_employee = 1250 ∧
    scenarioResult.philhealth_employee = 625 ∧
    scenarioResult.pagibig_employee = 200 ∧
    scenarioResult.sss_employee + scenarioResult.philhealth_employee +
      scenarioResult.pagibig_employee = 2075 ∧
    scenarioResult.taxable_income = 27925 ∧
    (27925 : ℚ) * 12 = 335100 ∧ (335100 : ℚ) - 90000 = 245100 ∧
    calculate_bir_tax (Cell.num 245100) = 0 ∧
    scenarioResult.withholding_tax = 0 ∧
    scenarioResult.net_pay = 27925 := by
  refine ⟨?_, by norm_num [scenarioResult], by norm_num [scenarioResult],
    by norm_num [scenarioResult], by norm_num [scenarioResult],
    by norm_num [scenarioResult], by norm_num [scenarioResult],
    by norm_num, by norm_num, by rw [calculate_bir_tax_num]; norm_num,
    by norm_num [scenarioResult], by norm_num [scenarioResult]⟩
  rw [show processRow scenarioRow =
    some (scenarioRow, computeRecord 25000 5000 22 0 0 0 0 0 0 0 0) from rfl]
  rw [scenario_compute]

/-! ### Characterizing a successful row -/

/-- `processRow` succeeds exactly when all eleven `float(...)`
conversions succeed, and then returns the echoed row paired with the
loop body's result. -/
theorem processRow_eq_some_iff {r : Row} {p : Row × PayrollResult} :
    processRow r = some p ↔
    ∃ b al dw roh rd hh sh lm ab lw lo,
      r.basic_salary.toQ = some b ∧ r.allowances.toQ = some al ∧
      r.days_worked.toQ = some dw ∧
      r.regular_overtime_hours.toQ = some roh ∧
      r.rest_day_overtime_hours.toQ = some rd ∧
      r.holiday_overtime_hours.toQ = some hh ∧
      r.special_holiday_overtime_hours.toQ = some sh ∧
      r.late_minutes.toQ = some lm ∧ r.absent_days.toQ = some ab ∧
      r.leave_with_pay_days.toQ = some lw ∧ r.loans.toQ = some lo ∧
      p = (r, computeRecord b al dw roh rd hh sh lm ab lw lo) := by
  constructor
  · intro h
    unfold processRow at h
    rcases h1 : r.basic_salary.toQ with _ | b
    · rw [h1, Option.none_bind] at h
      exact Option.noConfusion h
    rcases h2 : r.allowances.toQ with _ | al
    · rw [h1, Option.some_bind, h2, Option.none_bind] at h
      exact Option.noConfusion h
    rcases h3 : r.days_worked.toQ with _ | dw
    · rw [h1, Option.some_bind, h2, Option.some_bind, h3, Option.none_bind] at h
      exact Option.noConfusion h
    rcases h4 : r.regular_overtime_hours.toQ with _ | roh
    · rw [h1, Option.some_bind, h2, Option.some_bind, h3, Option.some_bind,
        h4, Option.none_bind] at h
      exact Option.noConfusion h
    rcases h5 : r.rest_day_overtime_hours.toQ with _ | rd
    · rw [h1, Option.some_bind, h2, Option.some_bind, h3, Option.some_bind,
        h4, Option.some_bind, h5, Option.none_bind] at h
      exact Option.noConfusion h
    rcases h6 : r.holiday_overtime_hours.toQ with _ | hh
    · rw [h1, Option.some_bind, h2, Option.some_bind, h3, Option.some_bind,
        h4, Option.some_bind, h5, Option.some_bind, h6, Option.none_bind] at h
      exact Option.noConfusion h
    rcases h7 : r.special_holiday_overtime_hours.toQ with _ | sh
    · rw [h1, Option.some_bind, h2, Option.some_bind, h3, Option.some_bind,
        h4, Option.some_bind, h5, Option.some_bind, h6, Option.some_bind,
        h7, Option.none_bind] at h
      exact Option.noConfusion h
    rcases h8 : r.late_minutes.toQ with _ | lm
    · rw [h1, Option.some_bind, h2, Option.some_bind, h3, Option.some_bind,
        h4, Option.some_bind, h5, Option.some_bind, h6, Option.some_bind,
        h7, Option.some_bind, h8, Option.none_bind] at h
      exact Option.noConfusion h
    rcases h9 : r.absent_days.toQ with _ | ab
    · rw [h1, Option.some_bind, h2, Option.some_bind, h3, Option.some_bind,
        h4, Option.some_bind, h5, Option.some_bind, h6, Option.some_bind,
        h7, Option.some_bind, h8, Option.some_bind, h9, Option.none_bind] at h
      exact Option.noConfusion h
    rcases h10 : r.leave_with_pay_days.toQ with _ | lw
    · rw [h1, Option.some_bind, h2, Option.some_bind, h3, Option.some_bind,
        h4, Option.some_bind, h5, Option.some_bind, h6, Option.some_bind,
        h7, Option.some_bind, h8, Option.some_bind, h9, Option.some_bind,
        h10, Option.none_bind] at h
      exact Option.noConfusion h
    rcases h11 : r.loans.toQ with _ | lo
    · rw [h1, Option.some_bind, h2, Option.some_bind, h3, Option.some_bind,
        h4, Option.some_bind, h5, Option.some_bind, h6, Option.some_bind,
        h7, Option.some_bind, h8, Option.some_bind, h9, Option.some_bind,
        h10, Option.some_bind, h11, Option.none_bind] at h
      exact Option.noConfusion h
    rw [h1, Option.some_bind, h2, Option.some_bind, h3, Option.some_bind,
      h4, Option.some_bind, h5, Option.some_bind, h6, Option.some_bind,
      h7, Option.some_bind, h8, Option.some_bind, h9, Option.some_bind,
      h10, Option.some_bind, h11, Option.some_bind] at h
    exact ⟨b, al, dw, roh, rd, hh, sh, lm, ab, lw, lo,
      rfl, rfl, rfl, rfl, rfl, rfl, rfl, rfl, rfl, rfl, rfl,
      (Option.some_injective _ h).symm⟩
  · rintro ⟨b, al, dw, roh, rd, hh, sh, lm, ab, lw, lo,
      h1, h2, h3, h4, h5, h6, h7, h8, h9, h10, h11, hp⟩
    unfold processRow
    simp only [h1, h2, h3, h4, h5, h6, h7, h8, h9, h10, h11,
      Option.some_bind, hp]

/-- The contribution columns of the loop body depend only on the basic
salary argument. -/
theorem computeRecord_contrib_fields (b al dw roh rd hh sh lm ab lw lo : ℚ) :
    (computeRecord b al dw roh rd hh sh lm ab lw lo).sss_employee =
        (calculate_sss (Cell.num b)).employee_share ∧
      (computeRecord b al dw roh rd hh sh lm ab lw lo).sss_employer =
        (calculate_sss (Cell.num b)).employer_share ∧
      (computeRecord b al dw roh rd hh sh lm ab lw lo).philhealth_employee =
        (calculate_philhealth (Cell.num b)).employee_share ∧
      (computeRecord b al dw roh rd hh sh lm ab lw lo).philhealth_employer =
        (calculate_philhealth (Cell.num b)).employer_share ∧
      (computeRecord b al dw roh rd hh sh lm ab lw lo).pagibig_employee =
        (calculate_pagibig (Cell.num b)).employee_share ∧
      (computeRecord b al dw roh rd hh sh lm ab lw lo).pagibig_employer =
        (calculate_pagibig (Cell.num b)).employer_share :=
  ⟨rfl, rfl, rfl, rfl, rfl, rfl⟩

/-- The loop body never uses its `days_worked` argument (the source
binds and caps it, then drops it). -/
theorem computeRecord_ignores_days_worked (b al dw dw' roh rd hh sh lm ab lw lo : ℚ) :
    computeRecord b al dw roh rd hh sh lm ab lw lo =
      computeRecord b al dw' roh rd hh sh lm ab lw lo := rfl

/-! ### Claim C8 -/

/-- Claim C8: all three government contribution results are computed
from `basic_salary` alone — two successfully processed records that
agree on `basic_salary` receive identical SSS, PhilHealth and Pag-IBIG
employee and employer shares, whatever their other fields. -/
theorem contributions_depend_only_on_basic_salary
    (r1 r2 : Row) (p1 p2 : Row × PayrollResult)
    (hbasic : r1.basic_salary = r2.basic_salary)
    (hp1 : processRow r1 = some p1) (hp2 : processRow r2 = some p2) :
    p1.2.sss_employee = p2.2.sss_employee ∧
    p1.2.sss_employer = p2.2.sss_employer ∧
    p1.2.philhealth_employee = p2.2.philhealth_employee ∧
    p1.2.philhealth_employer = p2.2.philhealth_employer ∧
    p1.2.pagibig_employee = p2.2.pagibig_employee ∧
    p1.2.pagibig_employer = p2.2.pagibig_employer := by
  obtain ⟨b1, al1, dw1, roh1, rd1, hh1, sh1, lm1, ab1, lw1, lo1,
    e1, _, _, _, _, _, _, _, _, _, _, hq1⟩ := processRow_eq_some_iff.mp hp1
  obtain ⟨b2, al2, dw2, roh2, rd2, hh2, sh2, lm2, ab2, lw2, lo2,
    e2, _, _, _, _, _, _, _, _, _, _, hq2⟩ := processRow_eq_some_iff.mp hp2
  have hb : b1 = b2 := by
    rw [hbasic] at e1
    rw [e1] at e2
    exact Option.some_injective ℚ e2
  subst hq1 hq2 hb
  exact ⟨rfl, rfl, rfl, rfl, rfl, rfl⟩

/-- Witness for C8: two records sharing basic salary 25000 but with
different allowances and late minutes: applies the theorem. -/
theorem contributions_depend_only_on_basic_salary_witness :
    scenarioRow.basic_salary = scenarioRowB.basic_salary ∧
    (computeRecord 25000 5000 22 0 0 0 0 0 0 0 0).sss_employee =
      (computeRecord 25000 8000 22 0 0 0 0 30 0 0 0).sss_employee ∧
    (computeRecord 25000 5000 22 0 0 0 0 0 0 0 0).pagibig_employer =
      (computeRecord 25000 8000 22 0 0 0 0 30 0 0 0).pagibig_employer := by
  have h := contributions_depend_only_on_basic_salary scenarioRow scenarioRowB
    (scenarioRow, computeRecord 25000 5000 22 0 0 0 0 0 0 0 0)
    (scenarioRowB, computeRecord 25000 8000 22 0 0 0 0 30 0 0 0)
    rfl rfl rfl
  exact ⟨rfl, h.1, h.2.2.2.2.2⟩

/-! ### Claim C9 -/

/-- Claim C9: the `days_worked` field never influences any computed
column — two successfully processed records that differ only in
`days_worked` receive identical computed payroll columns. -/
theorem days_worked_no_influence (r1 r2 : Row) (p1 p2 : Row × PayrollResult)
    (h1 : r1.basic_salary = r2.basic_salary)
    (h2 : r1.allowances = r2.allowances)
    (h4 : r1.regular_overtime_hours = r2.regular_overtime_hours)
    (h5 : r1.rest_day_overtime_hours = r2.rest_day_overtime_hours)
    (h6 : r1.holiday_overtime_hours = r2.holiday_overtime_hours)
    (h7 : r1.special_holiday_overtime_hours = r2.special_holiday_overtime_hours)
    (h8 : r1.late_minutes = r2.late_minutes)
    (h9 : r1.absent_days = r2.absent_days)
    (h10 : r1.leave_with_pay_days = r2.leave_with_pay_days)
    (h11 : r1.loans = r2.loans)
    (hp1 : processRow r1 = some p1) (hp2 : processRow r2 = some p2) :
    p1.2 = p2.2 := by
  obtain ⟨b1, al1, dw1, roh1, rd1, hh1, sh1, lm1, ab1, lw1, lo1,
    e1, e2, e3, e4, e5, e6, e7, e8, e9, e10, e11, hq1⟩ := processRow_eq_some_iff.mp hp1
  obtain ⟨b2, al2, dw2, roh2, rd2, hh2, sh2, lm2, ab2, lw2, lo2,
    f1, f2, f3, f4, f5, f6, f7, f8, f9, f10, f11, hq2⟩ := processRow_eq_some_iff.mp hp2
  rw [h1] at e1; rw [h2] at e2; rw [h4] at e4; rw [h5] at e5; rw [h6] at e6
  rw [h7] at e7; rw [h8] at e8; rw [h9] at e9; rw [h10] at e10; rw [h11] at e11
  rw [e1] at f1; rw [e2] at f2; rw [e4] at f4; rw [e5] at f5; rw [e6] at f6
  rw [e7] at f7; rw [e8] at f8; rw [e9] at f9; rw [e10] at f10; rw [e11] at f11
  have hb := Option.some_injective ℚ f1
  have hal := Option.some_injective ℚ f2
  have hroh := Option.some_injective ℚ f4
  have hrd := Option.some_injective ℚ f5
  have hhh := Option.some_injective ℚ f6
  have hsh := Option.some_injective ℚ f7
  have hlm := Option.some_injective ℚ f8
  have hab := Option.some_injective ℚ f9
  have hlw := Option.some_injective ℚ f10
  have hlo := Option.some_injective ℚ f11
  subst hq1 hq2 hb hal hroh hrd hhh hsh hlm hab hlw hlo
  exact computeRecord_ignores_days_worked b1 al1 dw1 dw2 roh1 rd1 hh1 sh1 lm1 ab1 lw1 lo1

/-! ### Claim C6 -/

/-- A `filterMap` over rows that all succeed keeps every row. -/
theorem filterMap_length_eq_of_isSome {α β : Type} (f : α → Option β)
    (l : List α) (h : ∀ a ∈ l, (f a).isSome) :
    (l.filterMap f).length = l.length := by
  induction l with
  | nil => rfl
  | cons a t ih =>
    rcases Option.isSome_iff_exists.mp (h a (List.mem_cons_self a t)) with ⟨v, hv⟩
    simp only [List.filterMap_cons, hv, List.length_cons,
      ih fun x hx => h x (List.mem_cons_of_mem a hx)]

/-- Rows that all succeed contribute no failure reports. -/
theorem countP_isNone_eq_zero (l : List Row)
    (h : ∀ r ∈ l, (processRow (fillnaRow r)).isSome) :
    ((l.map fillnaRow).countP fun r => (processRow r).isNone) = 0 := by
  refine List.countP_eq_zero.mpr ?_
  intro a ha
  rcases List.mem_map.mp ha with ⟨x, hx, rfl⟩
  rcases Option.isSome_iff_exists.mp (h x hx) with ⟨v, hv⟩
  simp [hv]

/-- Claim C6: a batch containing one malformed record among valid ones
yields one payroll result per valid record plus exactly one reported
failure; the malformed record neither aborts the batch nor changes the
valid records' results (the batch without it produces the very same
result list, with zero failures). -/
theorem malformed_record_isolation (cols : List String) (xs ys : List Row)
    (b : Row) (hcols : ∀ c ∈ numeric_cols, c ∈ cols)
    (hb : processRow (fillnaRow b) = none)
    (hok : ∀ r ∈ xs ++ ys, (processRow (fillnaRow r)).isSome) :
    process_payroll ⟨cols, xs ++ b :: ys⟩ =
      Except.ok (((xs ++ ys).map fillnaRow).filterMap processRow, 1) ∧
    process_payroll ⟨cols, xs ++ ys⟩ =
      Except.ok (((xs ++ ys).map fillnaRow).filterMap processRow, 0) ∧
    (((xs ++ ys).map fillnaRow).filterMap processRow).length = (xs ++ ys).length := by
  have hxs : ∀ r ∈ xs, (processRow (fillnaRow r)).isSome :=
    fun r hr => hok r (List.mem_append_left ys hr)
  have hys : ∀ r ∈ ys, (processRow (fillnaRow r)).isSome :=
    fun r hr => hok r (List.mem_append_right xs hr)
  have hcxs := countP_isNone_eq_zero xs hxs
  have hcys := countP_isNone_eq_zero ys hys
  unfold process_payroll
  rw [if_pos hcols, if_pos hcols]
  refine ⟨?_, ?_, ?_⟩
  · simp only [List.map_append, List.map_cons, List.filterMap_append,
      List.filterMap_cons, List.countP_append, List.countP_cons, hb, hcxs, hcys]
    simp
  · simp only [List.map_append, List.filterMap_append, List.countP_append,
      hcxs, hcys]
  · have hmem : ∀ a ∈ (xs ++ ys).map fillnaRow, (processRow a).isSome := by
      intro a ha
      rcases List.mem_map.mp ha with ⟨x, hx, rfl⟩
      exact hok x hx
    rw [filterMap_length_eq_of_isSome processRow ((xs ++ ys).map fillnaRow) hmem,
      List.length_map]

/-- Witness for C6: nine valid scenario records plus one `"N/A"` record:
applies the theorem. -/
theorem malformed_record_isolation_witness :
    (∀ c ∈ numeric_cols, c ∈ witnessCols) ∧
    processRow (fillnaRow badRow) = none ∧
    process_payroll ⟨witnessCols, List.replicate 9 scenarioRow ++ badRow :: []⟩ =
      Except.ok (((List.replicate 9 scenarioRow ++ ([] : List Row)).map
        fillnaRow).filterMap processRow, 1) ∧
    (((List.replicate 9 scenarioRow ++ ([] : List Row)).map
        fillnaRow).filterMap processRow).length =
      (List.replicate 9 scenarioRow ++ ([] : List Row)).length := by
  have hc : ∀ c ∈ numeric_cols, c ∈ witnessCols := by decide
  have hok : ∀ r ∈ List.replicate 9 scenarioRow ++ ([] : List Row),
      (processRow (fillnaRow r)).isSome := by
    intro r hr
    rw [List.append_nil] at hr
    rw [List.eq_of_mem_replicate hr]
    rfl
  have h := malformed_record_isolation witnessCols (List.replicate 9 scenarioRow)
    [] badRow hc rfl hok
  exact ⟨hc, rfl, h.1, h.2.2⟩

/-! ### Claim C7 -/

/-- `fillna` is idempotent on a cell. -/
theorem fillnaCell_idem (c : Cell) : fillnaCell (fillnaCell c) = fillnaCell c := by
  cases c <;> rfl

/-- `fillna` absorbs the explicit zeroing of empty optional cells. -/
theorem fillnaRow_zeroEmptyOptional (r : Row) :
    fillnaRow (zeroEmptyOptional r) = fillnaRow r := by
  cases r
  simp [fillnaRow, zeroEmptyOptional, fillnaCell_idem]

/-- Counterexample to Claim C7: a batch whose sheet has no `loans`
column at all — the field is missing on every record — is not processed
with `loans = 0`; instead `df[numeric_cols]` raises a pandas `KeyError`
and the whole batch aborts with an error. -/
theorem absent_column_counterexample :
    ("loans" ∈ numeric_cols ∧ "loans" ∉ noLoansDF.cols) ∧
    process_payroll noLoansDF = Except.error "KeyError: columns not in index" :=
  ⟨⟨by decide, by decide⟩, rfl⟩

/-- Claim C7 as amended: when the sheet carries all eleven numeric
columns, a batch is processed without error, and records whose optional
numeric cells are empty (`NaN`) are processed exactly as if those
fields were 0; a numeric column absent from the sheet entirely instead
aborts the batch. -/
theorem empty_cells_default_zero (cols : List String) (rows : List Row)
    (hcols : ∀ c ∈ numeric_cols, c ∈ cols) :
    (∃ out, process_payroll ⟨cols, rows⟩ = Except.ok out) ∧
    process_payroll ⟨cols, rows⟩ =
      process_payroll ⟨cols, rows.map zeroEmptyOptional⟩ := by
  unfold process_payroll
  rw [if_pos hcols, if_pos hcols]
  refine ⟨⟨_, rfl⟩, ?_⟩
  rw [List.map_map,
    show fillnaRow ∘ zeroEmptyOptional = fillnaRow from
      funext fillnaRow_zeroEmptyOptional]

/-- Witness for the amended C7 on a one-record batch with empty
optional cells: applies the theorem. -/
theorem empty_cells_default_zero_witness :
    (∀ c ∈ numeric_cols, c ∈ witnessCols) ∧
    (∃ out, process_payroll ⟨witnessCols, [nanRow]⟩ = Except.ok out) ∧
    process_payroll ⟨witnessCols, [nanRow]⟩ =
      process_payroll ⟨witnessCols, [nanRow].map zeroEmptyOptional⟩ := by
  have hc : ∀ c ∈ numeric_cols, c ∈ witnessCols := by decide
  exact ⟨hc, (empty_cells_default_zero witnessCols [nanRow] hc).1,
    (empty_cells_default_zero witnessCols [nanRow] hc).2⟩

/-- Witness for C9: the scenario record with `days_worked` 22 versus 10:
applies the theorem. -/
theorem days_worked_no_influence_witness :
    scenarioRowC.basic_salary = scenarioRow.basic_salary ∧
    computeRecord 25000 5000 22 0 0 0 0 0 0 0 0 =
      computeRecord 25000 5000 10 0 0 0 0 0 0 0 0 :=
  ⟨rfl, days_worked_no_influence scenarioRow scenarioRowC
    (scenarioRow, computeRecord 25000 5000 22 0 0 0 0 0 0 0 0)
    (scenarioRowC, computeRecord 25000 5000 10 0 0 0 0 0 0 0 0)
    rfl rfl rfl rfl rfl rfl rfl rfl rfl rfl rfl rfl⟩

end Payroll
